import Mathlib

/-!
Verification of the Job-Connect backend (Express/Mongoose job board).

The definitions below are a shallow embedding of the backend controllers,
routes and Mongoose schemas:

* `register`, `login`, `serializeUser` — backend/controllers, auth part
  (register at lines 175-225, login at 228-267, createSendToken at 152-171).
* `StoredUser` — backend/models/user.js (userSchema, lines 5-43, with the
  pre-save bcrypt hashing hook at 46-49).
* `JobDoc`, `jobPreSave`, `jobCreate` — the job schema (unnamed part_006)
  with its pre-save expiry middleware (lines 88-97).
* `postJob`, `getAllJobs`, `updateJob`, `deleteJob` —
  backend/controllers/jobController.js; the routes (unnamed part_008) put
  only `isAuthenticated` in front of every handler, so any role reaches it.
* `postApplication` — backend/controllers/applicationController.js, the
  profile-resume variant (lines 9-81).
* `uploadProfileResumeEvents`, `persistResumeUpdate` — the resume upload
  handler (auth controller lines 282-336), modelling respectively the order
  of its object-store calls and the Mongoose-level effect of its
  `findByIdAndUpdate` write under the default strict schema mode.

Machine integers are modelled as `Int`/`Nat`; instants are milliseconds
since the epoch; JavaScript truthiness of optional request fields is made
explicit (`truthyStr`, `truthyNat`). External collaborators (bcrypt, JWT
signing, the email-format validator) are abstract function parameters
gathered in `AuthEnv`; `env0` is an executable instantiation used to
evaluate concrete runs.
-/

/-- A resume reference: object-storage id plus durable URL (the shape both
the user profile and each application embed). -/
structure Resume where
  public_id : String
  url : String
  deriving DecidableEq, Repr

/-- JavaScript truthiness of an optional string request field:
`undefined` and the empty string are falsy. -/
def truthyStr : Option String → Bool
  | none => false
  | some s => s != ""

/-- JavaScript truthiness of an optional numeric request field:
`undefined` and `0` are falsy. -/
def truthyNat : Option Nat → Bool
  | none => false
  | some n => n != 0

/-- External collaborators of the auth controller: the email-format
validator (`validator.isEmail`), bcrypt hashing and comparison, and JWT
signing. The handlers are parametric in them. -/
structure AuthEnv where
  isEmail : String → Bool
  bcryptHash : String → String
  bcryptCompare : String → String → Bool
  sign : String → String

/-- A persisted User document, with exactly the paths of `userSchema`
(backend/models/user.js lines 5-43): name, email, phone, password, role,
skillset, createdAt. Note the schema declares no `resume` path. -/
structure StoredUser where
  id : String
  name : String
  email : String
  phone : Nat
  password : String
  role : String
  skillset : List String
  createdAt : Int
  deriving DecidableEq, Repr

/-- The serialized user object of a JSON response; `password` is an
`Option` because `createSendToken` deletes the field before serializing
while other code paths leave it in place. -/
structure UserOut where
  id : String
  name : String
  email : String
  phone : Nat
  password : Option String
  role : String
  skillset : List String
  createdAt : Int
  deriving DecidableEq, Repr

/-- Serialization of a freshly created document: every field it holds,
including the hashed password (`select: false` only projects queries, it
does not strip the in-memory document returned by `User.create`). -/
def serializeUser (u : StoredUser) : UserOut :=
  { id := u.id, name := u.name, email := u.email, phone := u.phone,
    password := some u.password, role := u.role, skillset := u.skillset,
    createdAt := u.createdAt }

/-- Serialization after `createSendToken` has run
`user.password = undefined` (auth controller line 162). -/
def serializeUserNoPassword (u : StoredUser) : UserOut :=
  { id := u.id, name := u.name, email := u.email, phone := u.phone,
    password := none, role := u.role, skillset := u.skillset,
    createdAt := u.createdAt }

/-- Request body of POST /user/register. -/
structure RegisterBody where
  name : Option String := none
  email : Option String := none
  phone : Option Nat := none
  password : Option String := none
  role : Option String := none
  skillset : Option (List String) := none
  deriving DecidableEq, Repr

/-- The first guard of `register` (line 179):
`!name || !email || !phone || !password || !role`. -/
def regFieldsPresent (b : RegisterBody) : Bool :=
  truthyStr b.name && truthyStr b.email && truthyNat b.phone &&
    truthyStr b.password && truthyStr b.role

/-- `skillset && skillset.length > 0` (line 186); its negation is the
line-193 condition `!skillset || skillset.length === 0`. -/
def skillsetNonempty : Option (List String) → Bool
  | none => false
  | some l => decide (0 < l.length)

/-- The `lowercase: true` setter of the email path. This is
`String.toLower` restated structurally (character-wise map over the
underlying data) so that concrete runs evaluate by kernel reduction. -/
def lowerStr (s : String) : String := String.mk (s.data.map Char.toLower)

/-- Validation run by `User.create` against `userSchema`: name length 3-30,
email format (checked after the `lowercase: true` setter) and uniqueness,
password at least 8 characters, role in the enum. -/
def userCreateValidate (env : AuthEnv) (db : List StoredUser)
    (name email password role : String) : Bool :=
  decide (3 ≤ name.length) && decide (name.length ≤ 30) &&
    env.isEmail (lowerStr email) &&
    db.all (fun u => u.email != lowerStr email) &&
    decide (8 ≤ password.length) &&
    (role == "Job Seeker" || role == "Employer")

/-- Outcome of POST /user/register: HTTP status, message, the serialized
user of the response body (if any), and the user store after the call. -/
structure RegisterRes where
  status : Nat
  message : String
  userOut : Option UserOut
  db : List StoredUser
  deriving DecidableEq, Repr

/-- `register` (auth controller lines 175-225). `now` is the clock read by
the `createdAt` default, `newId` the id the database assigns. On success
the response embeds the full created document — including the hashed
password — because `register` returns `newUser` without stripping it. -/
def register (env : AuthEnv) (now : Int) (newId : String)
    (db : List StoredUser) (b : RegisterBody) : RegisterRes :=
  if !(regFieldsPresent b) then
    { status := 400, message := "Please provide all required fields.",
      userOut := none, db := db }
  else if b.role == some "Employer" && skillsetNonempty b.skillset then
    { status := 400, message := "Employers should not provide a skillset.",
      userOut := none, db := db }
  else if b.role == some "Job Seeker" && !skillsetNonempty b.skillset then
    { status := 400, message := "Job Seekers must provide at least one skill.",
      userOut := none, db := db }
  else
    let name := b.name.getD ""
    let email := b.email.getD ""
    let phone := b.phone.getD 0
    let password := b.password.getD ""
    let role := b.role.getD ""
    -- `skillset: role !== 'Employer' ? skillset : []` (line 206); a missing
    -- skillset falls back to the schema default [].
    let skills := if role != "Employer" then b.skillset.getD [] else []
    if userCreateValidate env db name email password role then
      let doc : StoredUser :=
        { id := newId, name := name, email := lowerStr email, phone := phone,
          password := env.bcryptHash password, role := role,
          skillset := skills, createdAt := now }
      { status := 201, message := "Registration successful.",
        userOut := some (serializeUser doc), db := db ++ [doc] }
    else
      { status := 500,
        message := "Something went wrong while registering the user.",
        userOut := none, db := db }

/-- Outcome of POST /user/login: status, optional message, optional JWT
token and serialized user (the success body carries no message field). -/
structure LoginRes where
  status : Nat
  message : Option String
  token : Option String
  userOut : Option UserOut
  deriving DecidableEq, Repr

/-- `login` (auth controller lines 228-267): find the user by email with
the password projected back in, compare with bcrypt, and either answer 401
with one fixed message or hand over to `createSendToken`. -/
def login (env : AuthEnv) (db : List StoredUser)
    (email password : Option String) : LoginRes :=
  if !(truthyStr email && truthyStr password) then
    { status := 400, message := some "Please provide email, password.",
      token := none, userOut := none }
  else
    match db.find? (fun u => u.email == email.getD "") with
    | none =>
      { status := 401, message := some "Invalid Email or Password.",
        token := none, userOut := none }
    | some u =>
      if env.bcryptCompare (password.getD "") u.password then
        { status := 200, message := none, token := some (env.sign u.id),
          userOut := some (serializeUserNoPassword u) }
      else
        { status := 401, message := some "Invalid Email or Password.",
          token := none, userOut := none }

/-- Executable instantiation of the external collaborators, used to run the
handlers on concrete inputs. -/
def env0 : AuthEnv :=
  { isEmail := fun e => e.data.contains '@',
    bcryptHash := fun s => "hashed-" ++ s,
    bcryptCompare := fun candidate stored => ("hashed-" ++ candidate) == stored,
    sign := fun id => "jwt-" ++ id }

/-- Milliseconds in a day; `setDate(getDate() + days)` advances the instant
by whole days. -/
def msPerDay : Int := 86400000

/-- A persisted Job document with the paths of the job schema (unnamed
part_006 lines 3-85). There is no `createdAt` path and no timestamps
option in that schema. -/
structure JobDoc where
  company : String
  title : String
  description : String
  skillsRequired : Option (List String) := none
  category : String
  country : String
  city : String
  location : String
  fixedSalary : Option Int := none
  salaryFrom : Option Int := none
  salaryTo : Option Int := none
  experienceLevel : String
  jobPostedOn : Int
  postedBy : String
  savedByUsers : List (String × Int) := []
  expired : Bool := false
  timeLeftToExpire : Int
  deriving DecidableEq, Repr

/-- A client-supplied job body (create or update); every field optional.
`postedBy` can appear in a request body but `postJob` always overwrites it
with the authenticated id (`{...req.body, postedBy: req.user._id}`). -/
structure JobBody where
  company : Option String := none
  title : Option String := none
  description : Option String := none
  skillsRequired : Option (List String) := none
  category : Option String := none
  country : Option String := none
  city : Option String := none
  location : Option String := none
  fixedSalary : Option Int := none
  salaryFrom : Option Int := none
  salaryTo : Option Int := none
  experienceLevel : Option String := none
  jobPostedOn : Option Int := none
  postedBy : Option String := none
  expired : Option Bool := none
  timeLeftToExpire : Option Int := none
  deriving DecidableEq, Repr

/-- The experience-level enum of the job schema. -/
def expLevels : List String := ["Entry Level", "Mid Level", "Senior Level"]

/-- A `required` string path accepts neither a missing value nor the empty
string. -/
def reqStr : Option String → Bool
  | none => false
  | some s => s != ""

/-- The `required`/enum validation `Job.create` runs against the schema. -/
def jobRequiredOk (b : JobBody) : Bool :=
  reqStr b.company && reqStr b.title && reqStr b.description &&
    reqStr b.category && reqStr b.country && reqStr b.city &&
    reqStr b.location &&
    (match b.experienceLevel with
     | some e => expLevels.contains e
     | none => false) &&
    b.timeLeftToExpire.isSome

/-- `jobPostedOn + timeLeftToExpire` days — the expiry instant computed by
the pre-save middleware (part_006 lines 89-91). -/
def jobExpiryInstant (j : JobDoc) : Int :=
  j.jobPostedOn + j.timeLeftToExpire * msPerDay

/-- The pre-save middleware (part_006 lines 88-97): when the current date
is strictly past the expiry instant, set `expired := true`; otherwise the
document is left untouched. It never resets the flag to false. -/
def jobPreSave (now : Int) (j : JobDoc) : JobDoc :=
  if jobExpiryInstant j < now then { j with expired := true } else j

/-- `Job.create` as run by `postJob`: validate, fill schema defaults
(`jobPostedOn := Date.now`, `expired := false`, `savedByUsers := []`), set
`postedBy` to the creator, then run the pre-save middleware. -/
def jobCreate (now : Int) (postedBy : String) (b : JobBody) : Option JobDoc :=
  if jobRequiredOk b then
    some (jobPreSave now
      { company := b.company.getD "", title := b.title.getD "",
        description := b.description.getD "",
        skillsRequired := b.skillsRequired,
        category := b.category.getD "", country := b.country.getD "",
        city := b.city.getD "", location := b.location.getD "",
        fixedSalary := b.fixedSalary, salaryFrom := b.salaryFrom,
        salaryTo := b.salaryTo,
        experienceLevel := b.experienceLevel.getD "",
        jobPostedOn := b.jobPostedOn.getD now,
        postedBy := postedBy,
        savedByUsers := [],
        expired := b.expired.getD false,
        timeLeftToExpire := b.timeLeftToExpire.getD 0 })
  else none

/-- A bare JSON `{ status-code, message }` answer. -/
structure JsonRes where
  status : Nat
  message : String
  deriving DecidableEq, Repr

/-- Outcome of POST /job/post: answer, created job (if any) and the job
store after the call. -/
structure PostJobRes where
  res : JsonRes
  job : Option JobDoc
  db : List (String × JobDoc)
  deriving DecidableEq, Repr

/-- `postJob` (jobController.js lines 4-22). The route (part_008) is
`router.post("/post", isAuthenticated, postJob)` and the handler body
contains no role test, so `userRole` is never read: any authenticated
identity creates a job, with itself as `postedBy`. -/
def postJob (now : Int) (newId userId userRole : String)
    (db : List (String × JobDoc)) (b : JobBody) : PostJobRes :=
  match jobCreate now userId b with
  | some j =>
    { res := { status := 201, message := "Job Posted Successfully" },
      job := some j, db := db ++ [(newId, j)] }
  | none =>
    { res := { status := 500, message := "Failed to post job" },
      job := none, db := db }

/-- The partial merge a `findByIdAndUpdate(id, req.body)` write applies:
provided paths replace the stored ones, everything else is kept. No save
middleware runs on this path, so `expired` is never recomputed here. -/
def jobApplyUpdate (j : JobDoc) (b : JobBody) : JobDoc :=
  { company := b.company.getD j.company, title := b.title.getD j.title,
    description := b.description.getD j.description,
    skillsRequired := match b.skillsRequired with
      | some v => some v
      | none => j.skillsRequired,
    category := b.category.getD j.category,
    country := b.country.getD j.country, city := b.city.getD j.city,
    location := b.location.getD j.location,
    fixedSalary := match b.fixedSalary with
      | some v => some v
      | none => j.fixedSalary,
    salaryFrom := match b.salaryFrom with
      | some v => some v
      | none => j.salaryFrom,
    salaryTo := match b.salaryTo with
      | some v => some v
      | none => j.salaryTo,
    experienceLevel := b.experienceLevel.getD j.experienceLevel,
    jobPostedOn := b.jobPostedOn.getD j.jobPostedOn,
    postedBy := b.postedBy.getD j.postedBy,
    savedByUsers := j.savedByUsers,
    expired := b.expired.getD j.expired,
    timeLeftToExpire := b.timeLeftToExpire.getD j.timeLeftToExpire }

/-- `runValidators: true` re-checks only the paths the update provides. -/
def jobUpdateValidate (b : JobBody) : Bool :=
  (match b.company with | some s => s != "" | none => true) &&
    (match b.title with | some s => s != "" | none => true) &&
    (match b.description with | some s => s != "" | none => true) &&
    (match b.category with | some s => s != "" | none => true) &&
    (match b.country with | some s => s != "" | none => true) &&
    (match b.city with | some s => s != "" | none => true) &&
    (match b.location with | some s => s != "" | none => true) &&
    (match b.experienceLevel with
     | some e => expLevels.contains e
     | none => true)

/-- `updateJob` (jobController.js lines 81-113). When no job has the given
id the handler throws `OOPS! Job not found.`, which its own catch-all
swallows into a 500 `Failed to update job.` answer. -/
def updateJob (userRole : String) (db : List (String × JobDoc))
    (id : String) (b : JobBody) : JsonRes × List (String × JobDoc) :=
  if userRole == "Job Seeker" then
    ({ status := 403,
       message := "Job Seeker not allowed to access this resource." }, db)
  else
    match db.find? (fun kv => kv.1 == id) with
    | none => ({ status := 500, message := "Failed to update job." }, db)
    | some kv =>
      if jobUpdateValidate b then
        ({ status := 200, message := "Job Updated!" },
         db.map (fun kv2 =>
           if kv2.1 == id then (kv2.1, jobApplyUpdate kv.2 b) else kv2))
      else
        ({ status := 500, message := "Failed to update job." }, db)

/-- `deleteJob` (jobController.js lines 116-144); like `updateJob`, the
missing-job throw is caught and surfaced as a 500 `Failed to delete job.`
answer. -/
def deleteJob (userRole : String) (db : List (String × JobDoc))
    (id : String) : JsonRes × List (String × JobDoc) :=
  if userRole == "Job Seeker" then
    ({ status := 403,
       message := "Job Seeker not allowed to access this resource." }, db)
  else
    match db.find? (fun kv => kv.1 == id) with
    | none => ({ status := 500, message := "Failed to delete job." }, db)
    | some _ =>
      ({ status := 200, message := "Job Deleted!" },
       db.filter (fun kv => kv.1 != id))

/-- The sort key of `getAllJobs` is the `createdAt` path
(`.sort({ createdAt: -1 })`, jobController.js line 37). The job schema
(part_006) declares no `createdAt` path and no timestamps option, so the
key is missing on every persisted job document. -/
def jobCreatedAt : JobDoc → Option Int := fun _ => none

/-- BSON comparison of two optional sort keys; a missing value sorts below
any present value. -/
def optIntLt : Option Int → Option Int → Bool
  | none, none => false
  | none, some _ => true
  | some _, none => false
  | some a, some b => decide (a < b)

/-- Stable descending insertion on the `createdAt` key: the inserted
element goes before the first element that does not strictly exceed it, so
documents with equal (here: all missing) keys keep their store order. -/
def insertByCreatedAtDesc (x : String × JobDoc) :
    List (String × JobDoc) → List (String × JobDoc)
  | [] => [x]
  | y :: ys =>
    if optIntLt (jobCreatedAt x.2) (jobCreatedAt y.2) then
      y :: insertByCreatedAtDesc x ys
    else
      x :: y :: ys

/-- The `.sort({ createdAt: -1 })` stage as a stable descending sort. -/
def sortByCreatedAtDesc : List (String × JobDoc) → List (String × JobDoc)
  | [] => []
  | x :: xs => insertByCreatedAtDesc x (sortByCreatedAtDesc xs)

/-- `parseInt(req.query.page) || 1` — absent (NaN) and 0 fall back to 1. -/
def pageOf : Option Nat → Nat
  | none => 1
  | some n => if n == 0 then 1 else n

/-- `parseInt(req.query.limit) || 10` — absent (NaN) and 0 fall back to 10. -/
def limitOf : Option Nat → Nat
  | none => 10
  | some n => if n == 0 then 10 else n

/-- Response body of GET /job/getall. -/
structure GetAllRes where
  status : Nat
  currentPage : Nat
  totalPages : Nat
  totalJobs : Nat
  jobs : List (String × JobDoc)
  deriving DecidableEq, Repr

/-- `getAllJobs` (jobController.js lines 26-54): count, sort by
`createdAt` descending, skip `(page-1)*limit`, take `limit`;
`totalPages = Math.ceil(totalJobs / limit)`, here `(t + l - 1) / l` on
naturals since the computed limit is never 0. -/
def getAllJobs (db : List (String × JobDoc)) (pageQ limitQ : Option Nat) :
    GetAllRes :=
  let page := pageOf pageQ
  let limit := limitOf limitQ
  let skip := (page - 1) * limit
  let totalJobs := db.length
  { status := 200, currentPage := page,
    totalPages := (totalJobs + limit - 1) / limit,
    totalJobs := totalJobs,
    jobs := ((sortByCreatedAtDesc db).drop skip).take limit }

/-- Request body of POST /application/post (JSON only; the resume comes
from the profile, no file is read on this route). -/
structure AppBody where
  name : Option String := none
  email : Option String := none
  coverLetter : Option String := none
  phone : Option String := none
  address : Option String := none
  jobId : Option String := none
  deriving DecidableEq, Repr

/-- The slice of the applicant User document `postApplication` reads after
`User.findById`: its resume reference, if any. -/
structure Applicant where
  resume : Option Resume
  deriving DecidableEq, Repr

/-- A persisted Application record (models/application.js is not under
src/; field list follows the create call at applicationController.js lines
47-60 and the data-model section of the spec). -/
structure ApplicationDoc where
  name : String
  email : String
  coverLetter : String
  phone : String
  address : String
  applicantID : String
  employerID : String
  jobId : String
  resume : Resume
  deriving DecidableEq, Repr

/-- The line-20 guard of `postApplication`:
`!name || !email || !coverLetter || !phone || !address || !jobId`. -/
def appFieldsPresent (b : AppBody) : Bool :=
  truthyStr b.name && truthyStr b.email && truthyStr b.coverLetter &&
    truthyStr b.phone && truthyStr b.address && truthyStr b.jobId

/-- Outcome of POST /application/post: status, message and the application
store after the call. -/
structure PostAppRes where
  status : Nat
  message : String
  apps : List ApplicationDoc
  deriving DecidableEq, Repr

/-- `postApplication` (applicationController.js lines 9-81): reject
Employers, require all body fields, read the applicant profile, reject
when it holds no resume reference (before even looking the job up), 404 a
missing job, otherwise create the application with the profile resume
copied in. -/
def postApplication (userRole userId : String)
    (users : List (String × Applicant)) (jobs : List (String × JobDoc))
    (apps : List ApplicationDoc) (b : AppBody) : PostAppRes :=
  if userRole == "Employer" then
    { status := 403, message := "Employer is not allowed to apply for jobs.",
      apps := apps }
  else if !(appFieldsPresent b) then
    { status := 400, message := "Please fill all required fields.",
      apps := apps }
  else
    match (users.find? (fun kv => kv.1 == userId)).map (fun kv => kv.2) with
    | none =>
      -- User.findById returned null; reading `.resume` on it throws a
      -- TypeError that the catch-all turns into a 500 with the error text.
      { status := 500, message := "Cannot read properties of null",
        apps := apps }
    | some applicant =>
      match applicant.resume with
      | none =>
        { status := 400,
          message := "Please upload your resume to your profile before applying.",
          apps := apps }
      | some r =>
        if r.url == "" then
          { status := 400,
            message := "Please upload your resume to your profile before applying.",
            apps := apps }
        else
          match (jobs.find? (fun kv => kv.1 == b.jobId.getD "")).map
              (fun kv => kv.2) with
          | none => { status := 404, message := "Job not found.", apps := apps }
          | some jd =>
            { status := 201, message := "Application submitted successfully.",
              apps := apps ++
                [{ name := b.name.getD "", email := b.email.getD "",
                   coverLetter := b.coverLetter.getD "",
                   phone := b.phone.getD "", address := b.address.getD "",
                   applicantID := userId, employerID := jd.postedBy,
                   jobId := b.jobId.getD "",
                   resume := { public_id := r.public_id, url := r.url } }] }

/-- A call the resume-upload handler makes against the object store. -/
inductive StorageEvent where
  | destroy (public_id : String)
  | upload (buffer : String)
  deriving DecidableEq, Repr

/-- The object-store calls of `uploadProfileResume` (auth controller lines
282-336), in program order: nothing without a file (400 first); otherwise
`cloudinary.uploader.destroy` on the old reference — the lines 292-297
block, guarded by `req.user.resume && req.user.resume.public_id` — and
only then `upload_stream` with the new buffer (lines 299-309). -/
def uploadProfileResumeEvents (userResume : Option Resume)
    (file : Option String) : List StorageEvent :=
  match file with
  | none => []
  | some buf =>
    (match userResume with
     | some r =>
       if r.public_id != "" then [StorageEvent.destroy r.public_id] else []
     | none => []) ++ [StorageEvent.upload buf]

/-- Whether some `destroy` call happens strictly before some `upload` call. -/
def isUploadEvent : StorageEvent → Bool
  | StorageEvent.upload _ => true
  | StorageEvent.destroy _ => false

/-- True when a `destroy` precedes an `upload` in the call sequence. -/
def destroyBeforeUpload : List StorageEvent → Bool
  | [] => false
  | StorageEvent.destroy _ :: rest =>
    rest.any isUploadEvent || destroyBeforeUpload rest
  | StorageEvent.upload _ :: rest => destroyBeforeUpload rest

/-- A field value of a stored BSON document. -/
inductive FVal where
  | s (v : String)
  | n (v : Int)
  | slist (v : List String)
  | ref (v : Resume)
  deriving DecidableEq, Repr

/-- A stored document as field-name/value pairs. -/
abbrev UserDocKV := List (String × FVal)

/-- The paths `userSchema` declares (backend/models/user.js lines 5-43).
There is no `resume` path. -/
def userSchemaPaths : List String :=
  ["name", "email", "phone", "password", "role", "skillset", "createdAt"]

/-- Set one field of a stored document. -/
def setDocField (d : UserDocKV) (k : String) (v : FVal) : UserDocKV :=
  if d.any (fun kv => kv.1 == k) then
    d.map (fun kv => if kv.1 == k then (k, v) else kv)
  else
    d ++ [(k, v)]

/-- A Mongoose `findByIdAndUpdate` write under the default `strict: true`
schema option: update paths that the schema does not declare are stripped
before the update is applied. -/
def applyStrictUpdate (d : UserDocKV) (upd : UserDocKV) : UserDocKV :=
  (upd.filter (fun kv => userSchemaPaths.contains kv.1)).foldl
    (fun acc kv => setDocField acc kv.1 kv.2) d

/-- Read one field of a stored document. -/
def getDocField (d : UserDocKV) (k : String) : Option FVal :=
  (d.find? (fun kv => kv.1 == k)).map (fun kv => kv.2)

/-- The database write of `uploadProfileResume` (auth controller lines
312-321): `User.findByIdAndUpdate(req.user._id, { resume: { public_id,
url } })` against `userSchema`. -/
def persistResumeUpdate (d : UserDocKV) (r : Resume) : UserDocKV :=
  applyStrictUpdate d [("resume", FVal.ref r)]

/-! Concrete sample inputs used to run the handlers. -/

/-- A complete, schema-valid job posting body. -/
def sampleJobBody : JobBody :=
  { company := some "Acme", title := some "Backend Dev",
    description := some "Build APIs", category := some "Technology",
    country := some "US", city := some "NYC", location := some "Remote",
    experienceLevel := some "Entry Level", timeLeftToExpire := some 30 }

/-- The job `postJob 0 "j1" "seeker1" _ [] sampleJobBody` creates. -/
def c1Job : JobDoc :=
  { company := "Acme", title := "Backend Dev", description := "Build APIs",
    category := "Technology", country := "US", city := "NYC",
    location := "Remote", experienceLevel := "Entry Level",
    jobPostedOn := 0, postedBy := "seeker1", timeLeftToExpire := 30 }

/-- A job posted at instant 0 with a 1-day window, legitimately marked
expired by a save that happened after day 1. -/
def c2StaleJob : JobDoc :=
  { company := "Acme", title := "Backend Dev", description := "Build APIs",
    category := "Technology", country := "US", city := "NYC",
    location := "Remote", experienceLevel := "Entry Level",
    jobPostedOn := 0, postedBy := "emp1", expired := true,
    timeLeftToExpire := 1 }

/-- An update extending the expiry window to 100 days. -/
def c2ExtendBody : JobBody := { timeLeftToExpire := some 100 }

/-- `c2StaleJob` after the extending update is merged in. -/
def c2UpdatedJob : JobDoc := { c2StaleJob with timeLeftToExpire := 100 }

/-- A user document as registration persists it: exactly the schema paths,
no `resume` key. -/
def c3UserDoc : UserDocKV :=
  [("name", FVal.s "Sana"), ("email", FVal.s "sana@mail.com"),
   ("phone", FVal.n 1234567890), ("password", FVal.s "hashed-secret123"),
   ("role", FVal.s "Job Seeker"), ("skillset", FVal.slist ["JavaScript"]),
   ("createdAt", FVal.n 0)]

/-- The reference returned by a successful object-store upload. -/
def c3Resume : Resume :=
  { public_id := "jobify_profile_resumes/cv-1",
    url := "https://files.example/cv-1.pdf" }

/-- A complete, valid Employer registration body. -/
def c4Body : RegisterBody :=
  { name := some "Alice", email := some "alice@mail.com",
    phone := some 1234567890, password := some "secret123",
    role := some "Employer" }

/-- A complete application body. -/
def c5Body : AppBody :=
  { name := some "Sana", email := some "sana@mail.com",
    coverLetter := some "Hi", phone := some "123456",
    address := some "Street 1", jobId := some "j1" }

/-- A previously stored profile resume reference. -/
def c6OldResume : Resume :=
  { public_id := "jobify_profile_resumes/old-cv",
    url := "https://files.example/old-cv.pdf" }

/-- Job Seeker registration with an explicit empty skillset. -/
def c7BodyJsNoSkill : RegisterBody :=
  { name := some "Sana", email := some "sana@mail.com",
    phone := some 1234567890, password := some "secret123",
    role := some "Job Seeker", skillset := some [] }

/-- Employer registration carrying a non-empty skillset. -/
def c7BodyEmpSkill : RegisterBody :=
  { name := some "Omar", email := some "omar@mail.com",
    phone := some 1234567890, password := some "secret123",
    role := some "Employer", skillset := some ["Hiring"] }

/-- Valid Job Seeker registration (non-empty skillset). -/
def c7BodyJsOk : RegisterBody :=
  { name := some "Sana", email := some "sana@mail.com",
    phone := some 1234567890, password := some "secret123",
    role := some "Job Seeker", skillset := some ["JavaScript"] }

/-- Valid Employer registration (no skillset supplied). -/
def c7BodyEmpOk : RegisterBody :=
  { name := some "Omar", email := some "omar@mail.com",
    phone := some 1234567890, password := some "secret123",
    role := some "Employer" }

/-- The older of two stored jobs (posted at instant 0). -/
def c9OldJob : JobDoc :=
  { company := "Acme", title := "Old role", description := "Build APIs",
    category := "Technology", country := "US", city := "NYC",
    location := "Remote", experienceLevel := "Entry Level",
    jobPostedOn := 0, postedBy := "emp1", timeLeftToExpire := 30 }

/-- The newer job (posted at instant 500), inserted after the older one. -/
def c9NewJob : JobDoc := { c9OldJob with title := "New role", jobPostedOn := 500 }

/-- Is a listing sorted by descending posting instant (newest first)? -/
def sortedDescByPostedOn : List (String × JobDoc) → Bool
  | [] => true
  | [_] => true
  | a :: b :: t =>
    decide (b.2.jobPostedOn ≤ a.2.jobPostedOn) && sortedDescByPostedOn (b :: t)

/-- A store of 15 jobs. -/
def c9Db15 : List (String × JobDoc) := List.replicate 15 ("j0", c9OldJob)

/-- A registered user as `login` finds it (bcrypt hash stored). -/
def c10User : StoredUser :=
  { id := "u1", name := "Sana", email := "sana@mail.com",
    phone := 1234567890, password := "hashed-secret123",
    role := "Job Seeker", skillset := ["JavaScript"], createdAt := 0 }

/-- C1: the claim says POST /job/post creates a job only for an Employer
and rejects any non-Employer identity. The handler in fact performs no
role test at all: its outcome is identical for every role (first
conjunct), and a concrete authenticated Job Seeker request is answered 201
with the job persisted and `postedBy` set to the seeker (remaining
conjuncts) — so the claim fails against the code. -/
theorem c1_post_job_ignores_role :
  (∀ (now : Int) (newId userId role1 role2 : String)
      (db : List (String × JobDoc)) (b : JobBody),
    postJob now newId userId role1 db b = postJob now newId userId role2 db b)
  ∧ (postJob 0 "j1" "seeker1" "Job Seeker" [] sampleJobBody).res.status = 201
  ∧ (postJob 0 "j1" "seeker1" "Job Seeker" [] sampleJobBody).db = [("j1", c1Job)]
  ∧ c1Job.postedBy = "seeker1" := by
  refine ⟨fun _ _ _ _ _ _ _ => rfl, by decide, by decide, rfl⟩

/-- C2 counterexample: a legitimately expired job (1-day window, flag set
by a past save) is updated through PATCH /job/update/:id to a 100-day
window; at `now` = 2 days the deadline is again in the future, yet the
persisted flag stays `true` — the write does not make `expired` equal the
claimed predicate. -/
theorem c2_expired_flag_counterexample :
  updateJob "Employer" [("j1", c2StaleJob)] "j1" c2ExtendBody =
    ({ status := 200, message := "Job Updated!" }, [("j1", c2UpdatedJob)])
  ∧ c2UpdatedJob.expired = true
  ∧ decide (jobExpiryInstant c2UpdatedJob < 2 * msPerDay) = false := by decide

/-- C2 amended: on a save the middleware sets `expired` to true exactly
when the deadline has passed and otherwise leaves the stored value as it
was (never resetting it to false); a `findByIdAndUpdate` write bypasses
the middleware, so `expired` is then simply the supplied value or the
prior one. -/
theorem c2_expired_flag_amended (now : Int) (j : JobDoc) (b : JobBody) :
  (jobPreSave now j).expired = (j.expired || decide (jobExpiryInstant j < now))
  ∧ (jobApplyUpdate j b).expired = b.expired.getD j.expired := by
  constructor
  · unfold jobPreSave
    split <;> simp_all
  · rfl

/-- C3: the claim says a successful POST /user/upload-resume leaves the
new resume reference on the persisted User record. `userSchema` declares
no `resume` path, so under the default strict schema mode the
`findByIdAndUpdate({ resume: ... })` write is stripped entirely: the
stored document is unchanged for every document and every reference, and
reading the profile resume afterwards still yields nothing. -/
theorem c3_resume_update_not_persisted :
  (∀ (d : UserDocKV) (r : Resume), persistResumeUpdate d r = d)
  ∧ getDocField (persistResumeUpdate c3UserDoc c3Resume) "resume" = none := by
  exact ⟨fun d r => rfl, by decide⟩

/-- C4: the claim says no response ever serializes the password hash. The
registration response embeds the full created document, whose password
field holds exactly the bcrypt hash of the submitted password — refuting
the claim at a concrete valid registration. -/
theorem c4_register_serializes_password_hash :
  (register env0 0 "u1" [] c4Body).status = 201
  ∧ ((register env0 0 "u1" [] c4Body).userOut.map (fun u => u.password)) =
      some (some "hashed-secret123") := by decide

/-- C6 counterexample: with a stored profile resume present, the handler
issues the object-store calls in the order destroy-old-then-upload-new, so
the deletion of the old object does precede the new upload — the claimed
order (upload first, deletion only after) is refuted. -/
theorem c6_destroy_precedes_upload_counterexample :
  uploadProfileResumeEvents (some c6OldResume) (some "new-cv-bytes") =
    [StorageEvent.destroy "jobify_profile_resumes/old-cv",
     StorageEvent.upload "new-cv-bytes"]
  ∧ destroyBeforeUpload
      (uploadProfileResumeEvents (some c6OldResume) (some "new-cv-bytes")) =
      true := by decide

/-- C6 amended: whenever the request user carries a prior resume reference
(non-empty storage id) and a file is supplied, the old stored object is
deleted first and the new upload happens only afterwards — deletion always
precedes the upload attempt. -/
theorem c6_destroy_first_amended (r : Resume) (buf : String)
    (h : r.public_id ≠ "") :
  uploadProfileResumeEvents (some r) (some buf) =
    [StorageEvent.destroy r.public_id, StorageEvent.upload buf] := by
  simp [uploadProfileResumeEvents, h]

/-- C6 amended, witness at a concrete prior resume and file. -/
theorem c6_destroy_first_amended_witness :
  uploadProfileResumeEvents (some c6OldResume) (some "cv2") =
    [StorageEvent.destroy c6OldResume.public_id, StorageEvent.upload "cv2"] :=
  c6_destroy_first_amended c6OldResume "cv2" (by decide)

/-- C8: the claim says PATCH /job/update/:id and DELETE /job/delete/:id
answer 404 when the job does not exist. Both handlers throw inside their
try block and the catch-all maps the throw to a 500 with a generic
message, so an Employer updating or deleting a missing id gets 500, not
404. -/
theorem c8_missing_job_returns_500 :
  updateJob "Employer" [] "j1" {} =
    ({ status := 500, message := "Failed to update job." }, [])
  ∧ deleteJob "Employer" [] "j1" =
    ({ status := 500, message := "Failed to delete job." }, []) := by decide

/-- C5: a non-Employer (Job Seeker) request to POST /application/post
whose stored profile carries no resume reference is answered 400 and
leaves the application store unchanged; when the body is complete the
message is the upload-your-resume guidance (with an incomplete body the
400 carries the missing-fields message instead — either way no Application
record is created). -/
theorem c5_no_resume_rejected (role uid : String)
    (users : List (String × Applicant)) (jobs : List (String × JobDoc))
    (apps : List ApplicationDoc) (b : AppBody) (a : Applicant)
    (hrole : role ≠ "Employer")
    (hu : (users.find? (fun kv => kv.1 == uid)).map (fun kv => kv.2) = some a)
    (hres : a.resume = none) :
  (postApplication role uid users jobs apps b).status = 400
  ∧ (postApplication role uid users jobs apps b).apps = apps
  ∧ (appFieldsPresent b = true →
      (postApplication role uid users jobs apps b).message =
        "Please upload your resume to your profile before applying.") := by
  have hr : (role == "Employer") = false := by
    simp [hrole]
  by_cases hf : appFieldsPresent b = true
  · simp [postApplication, hr, hf, hu, hres]
  · have hf2 : appFieldsPresent b = false := by
      simpa using hf
    simp [postApplication, hr, hf2]

/-- C5 witness: a concrete complete Job Seeker request with a stored
profile that has no resume reference. -/
theorem c5_no_resume_rejected_witness :
  (postApplication "Job Seeker" "u1" [("u1", { resume := none })] [] []
      c5Body).status = 400
  ∧ (postApplication "Job Seeker" "u1" [("u1", { resume := none })] [] []
      c5Body).apps = []
  ∧ (postApplication "Job Seeker" "u1" [("u1", { resume := none })] [] []
      c5Body).message =
      "Please upload your resume to your profile before applying." := by
  have h := c5_no_resume_rejected "Job Seeker" "u1"
    [("u1", { resume := none })] [] [] c5Body { resume := none }
    (by decide) rfl rfl
  exact ⟨h.1, h.2.1, h.2.2 rfl⟩

/-- Helper: the sort key is missing on every job document, so the stable
descending insertion leaves the element in front. -/
theorem insertByCreatedAtDesc_missing (x : String × JobDoc)
    (l : List (String × JobDoc)) : insertByCreatedAtDesc x l = x :: l := by
  cases l with
  | nil => rfl
  | cons y ys => rfl

/-- Helper: sorting on the always-missing `createdAt` key keeps the store
order unchanged. -/
theorem sortByCreatedAtDesc_eq_self (l : List (String × JobDoc)) :
    sortByCreatedAtDesc l = l := by
  induction l with
  | nil => rfl
  | cons x xs ih =>
    show insertByCreatedAtDesc x (sortByCreatedAtDesc xs) = x :: xs
    rw [ih, insertByCreatedAtDesc_missing]

/-- C9 counterexample: two stored jobs, the older one inserted first; the
listing returns them in store order, so the page starts with the strictly
older posting — the listing is not newest-first. -/
theorem c9_not_newest_first_counterexample :
  (getAllJobs [("j1", c9OldJob), ("j2", c9NewJob)] none none).jobs =
    [("j1", c9OldJob), ("j2", c9NewJob)]
  ∧ c9OldJob.jobPostedOn < c9NewJob.jobPostedOn
  ∧ sortedDescByPostedOn
      (getAllJobs [("j1", c9OldJob), ("j2", c9NewJob)] none none).jobs =
      false := by decide

/-- C9 amended: the pagination arithmetic of the claim holds — slice
`skip (page-1)*limit, take limit` with the 1/10 falsy defaults, and
`totalPages = ceil(totalJobs/limit)`, with the concrete 15-jobs/page-2/
limit-10 instance returning 5 jobs and 2 pages — but the slice is of the
store in its insertion order: the sort key `createdAt` is not a job-schema
path, so ordering is not newest-first. -/
theorem c9_pagination_amended :
  (∀ (db : List (String × JobDoc)) (pq lq : Option Nat),
    (getAllJobs db pq lq).jobs =
      (db.drop ((pageOf pq - 1) * limitOf lq)).take (limitOf lq)
    ∧ (getAllJobs db pq lq).totalPages =
        (db.length + limitOf lq - 1) / limitOf lq
    ∧ (getAllJobs db pq lq).currentPage = pageOf pq)
  ∧ (getAllJobs c9Db15 (some 2) (some 10)).jobs.length = 5
  ∧ (getAllJobs c9Db15 (some 2) (some 10)).totalPages = 2 := by
  refine ⟨fun db pq lq => ?_, by decide, by decide⟩
  unfold getAllJobs
  rw [sortByCreatedAtDesc_eq_self]
  exact ⟨rfl, rfl, rfl⟩

/-- C10: the two failing login shapes — an email registered to no user,
and a registered email with a password bcrypt rejects — produce identical
observable responses: same 401 status, same `Invalid Email or Password.`
message, no token, no user payload. A caller cannot tell from the response
whether the email is registered. -/
theorem c10_login_failure_indistinguishable (env : AuthEnv)
    (db : List StoredUser) (e1 p1 e2 p2 : String) (u : StoredUser)
    (he1 : e1 ≠ "") (hp1 : p1 ≠ "") (he2 : e2 ≠ "") (hp2 : p2 ≠ "")
    (habsent : db.find? (fun v => v.email == e1) = none)
    (hfound : db.find? (fun v => v.email == e2) = some u)
    (hwrong : env.bcryptCompare p2 u.password = false) :
  login env db (some e1) (some p1) = login env db (some e2) (some p2)
  ∧ (login env db (some e1) (some p1)).status = 401
  ∧ (login env db (some e1) (some p1)).message =
      some "Invalid Email or Password." := by
  have l1 : login env db (some e1) (some p1) =
      { status := 401, message := some "Invalid Email or Password.",
        token := none, userOut := none } := by
    simp [login, truthyStr, he1, hp1, habsent]
  have l2 : login env db (some e2) (some p2) =
      { status := 401, message := some "Invalid Email or Password.",
        token := none, userOut := none } := by
    simp [login, truthyStr, he2, hp2, hfound, hwrong]
  exact ⟨l1.trans l2.symm, by rw [l1], by rw [l1]⟩

/-- C10 witness: one stored user; a ghost email versus the stored email
with a wrong password. -/
theorem c10_login_failure_indistinguishable_witness :
  login env0 [c10User] (some "ghost@mail.com") (some "whatever12") =
    login env0 [c10User] (some "sana@mail.com") (some "wrongpass1")
  ∧ (login env0 [c10User] (some "ghost@mail.com") (some "whatever12")).status
      = 401
  ∧ (login env0 [c10User] (some "ghost@mail.com") (some "whatever12")).message
      = some "Invalid Email or Password." :=
  c10_login_failure_indistinguishable env0 [c10User] "ghost@mail.com"
    "whatever12" "sana@mail.com" "wrongpass1" c10User (by decide) (by decide)
    (by decide) (by decide) (by decide) (by decide) (by decide)

/-- C7: registration validates skillset against role in both directions —
a Job Seeker body whose skillset is missing or empty is rejected (400,
store untouched), an Employer body carrying a non-empty skillset is
rejected (400, store untouched), and the accepted complements (Job Seeker
with non-empty skillset, Employer with no or empty skillset), given
otherwise valid fields, are answered 201 with the user persisted. -/
theorem c7_register_skillset_role (env : AuthEnv) (now : Int) (newId : String)
    (db : List StoredUser) (b : RegisterBody) :
  (b.role = some "Job Seeker" → skillsetNonempty b.skillset = false →
    (register env now newId db b).status = 400
    ∧ (register env now newId db b).db = db)
  ∧ (b.role = some "Employer" → skillsetNonempty b.skillset = true →
    (register env now newId db b).status = 400
    ∧ (register env now newId db b).db = db)
  ∧ (∀ (name email password : String) (phone : Nat) (skills : List String),
      b = { name := some name, email := some email, phone := some phone,
            password := some password, role := some "Job Seeker",
            skillset := some skills } →
      name ≠ "" → email ≠ "" → phone ≠ 0 → password ≠ "" → skills ≠ [] →
      userCreateValidate env db name email password "Job Seeker" = true →
      (register env now newId db b).status = 201
      ∧ (register env now newId db b).db = db ++
          [{ id := newId, name := name, email := lowerStr email,
             phone := phone, password := env.bcryptHash password,
             role := "Job Seeker", skillset := skills, createdAt := now }])
  ∧ (∀ (name email password : String) (phone : Nat)
        (sk : Option (List String)),
      b = { name := some name, email := some email, phone := some phone,
            password := some password, role := some "Employer",
            skillset := sk } →
      (sk = none ∨ sk = some []) →
      name ≠ "" → email ≠ "" → phone ≠ 0 → password ≠ "" →
      userCreateValidate env db name email password "Employer" = true →
      (register env now newId db b).status = 201
      ∧ (register env now newId db b).db = db ++
          [{ id := newId, name := name, email := lowerStr email,
             phone := phone, password := env.bcryptHash password,
             role := "Employer", skillset := [], createdAt := now }]) := by
  refine ⟨?_, ?_, ?_, ?_⟩
  · intro hrole hsk
    have e2 : (b.role == some "Employer") = false := by rw [hrole]; decide
    have e3 : (b.role == some "Job Seeker") = true := by rw [hrole]; decide
    cases hreg : regFieldsPresent b with
    | false => simp [register, hreg]
    | true => simp [register, hreg, e2, e3, hsk]
  · intro hrole hsk
    have e2 : (b.role == some "Employer") = true := by rw [hrole]; decide
    cases hreg : regFieldsPresent b with
    | false => simp [register, hreg]
    | true => simp [register, hreg, e2, hsk]
  · intro name email password phone skills hb hn heml hp hpw hsk hval
    subst hb
    have hreg : regFieldsPresent
        { name := some name, email := some email, phone := some phone,
          password := some password, role := some "Job Seeker",
          skillset := some skills } = true := by
      simp [regFieldsPresent, truthyStr, truthyNat, hn, heml, hp, hpw]
    have hskills : skillsetNonempty (some skills) = true := by
      simp [skillsetNonempty, List.length_pos, hsk]
    simp [register, hreg, hskills, hval]
  · intro name email password phone sk hb hsk hn heml hp hpw hval
    subst hb
    have hreg : regFieldsPresent
        { name := some name, email := some email, phone := some phone,
          password := some password, role := some "Employer",
          skillset := sk } = true := by
      simp [regFieldsPresent, truthyStr, truthyNat, hn, heml, hp, hpw]
    have hskills : skillsetNonempty sk = false := by
      rcases hsk with h | h <;> simp [h, skillsetNonempty]
    simp [register, hreg, hskills, hval]

/-- C7 witness: the four shapes at concrete bodies — Job Seeker with empty
skillset (400), Employer with a skillset (400), Job Seeker with a skill
(201), Employer without skillset (201). -/
theorem c7_register_skillset_role_witness :
  (register env0 0 "u1" [] c7BodyJsNoSkill).status = 400
  ∧ (register env0 0 "u2" [] c7BodyEmpSkill).status = 400
  ∧ (register env0 0 "u3" [] c7BodyJsOk).status = 201
  ∧ (register env0 0 "u4" [] c7BodyEmpOk).status = 201 := by
  refine ⟨((c7_register_skillset_role env0 0 "u1" [] c7BodyJsNoSkill).1
      rfl (by decide)).1,
    ((c7_register_skillset_role env0 0 "u2" [] c7BodyEmpSkill).2.1
      rfl (by decide)).1,
    ((c7_register_skillset_role env0 0 "u3" [] c7BodyJsOk).2.2.1
      "Sana" "sana@mail.com" "secret123" 1234567890 ["JavaScript"] rfl
      (by decide) (by decide) (by decide) (by decide) (by decide)
      (by decide)).1,
    ((c7_register_skillset_role env0 0 "u4" [] c7BodyEmpOk).2.2.2
      "Omar" "omar@mail.com" "secret123" 1234567890 none rfl (Or.inl rfl)
      (by decide) (by decide) (by decide) (by decide) (by decide)).1⟩
